import Mathlib

/-!
# Verification of the Babel REPL compile/orchestration pipeline

A shallow embedding, in Lean 4, of the two source files of the repository:

* `Compile.js` (the worker-side `compile` function): given source text and a
  `CompileConfig`, it optionally appends an `env` preset entry (built from the
  env configuration) to the preset list, invokes the external compiler
  (`Babel.transform`) once, and normalizes the result into a success or
  failure outcome.
* `Repl.js` (the orchestrator): builds compile requests from UI state,
  debounces edit-triggered recompiles, loads not-yet-loaded plugins, and
  applies worker results back into state.

External collaborators (the Babel compiler, `JSON.stringify` of the source
map, the debug-info formatter from `replUtils`, the lodash `debounce`
combinator, timers) are modelled abstractly: the compiler is an arbitrary
function returning either a result or a thrown error, serialization is an
arbitrary fallible function, and `debounce` is given its documented
trailing-edge semantics (the wrapped function fires once per burst of calls,
`delay` after the last call of the burst, with that call's arguments).
-/

/-- A thrown JavaScript error, observed only through its `message` field. -/
structure JsError where
  message : String
  deriving Repr, DecidableEq

/-- The env-target settings (`EnvConfig` in `types.js`), as read by
`compile`: an enable flag for the whole preset, a comma-separated browsers
string, and electron/node version fields with their enable flags. -/
structure EnvConfig where
  isEnvPresetEnabled : Bool
  browsers : String
  isElectronEnabled : Bool
  electron : String
  isNodeEnabled : Bool
  node : String
  deriving Repr, DecidableEq

/-- The `targets` object `compile` builds for the env preset.  A field holding
`none` models the corresponding key being absent from the JS object. -/
structure Targets where
  browsers : Option (List String) := none
  electron : Option String := none
  node : Option String := none
  deriving Repr, DecidableEq

/-- The options record of the pushed `["env", options]` preset entry.
`hasOnPresetBuild` models whether the `onPresetBuild` callback is non-null
(it is a function value in JS; only its presence matters to the embedding). -/
structure EnvPresetOptions where
  hasOnPresetBuild : Bool
  targets : Targets
  useBuiltIns : Bool
  deriving Repr, DecidableEq

/-- One entry of a Babel preset list: either a plain preset name (a string)
or the `["env", options]` pair pushed by `compile`. -/
inductive PresetEntry where
  | named (name : String)
  | env (options : EnvPresetOptions)
  deriving Repr, DecidableEq

/-- The `CompileConfig` record the orchestrator sends to the worker.
`envConfig = none` models the `null` the orchestrator passes while the env
preset is not loaded. -/
structure CompileConfig where
  debugEnvPreset : Bool
  envConfig : Option EnvConfig
  evaluate : Bool
  presets : List PresetEntry
  sourceMap : Bool
  useBuiltIns : Bool
  deriving Repr, DecidableEq

/-- The options object passed to `Babel.transform`. -/
structure TransformOptions where
  babelrc : Bool
  filename : String
  presets : List PresetEntry
  sourceMap : Bool
  deriving Repr, DecidableEq

/-- The value a successful `Babel.transform` returns: compiled code, an AST
object, a source-map object (both of abstract type), and the debug payload
the `onPresetBuild` callback captured during the transform — `none` when the
compiler never invoked the callback.  The callback's composition with
`getDebugInfoFromEnvResult` (external, in `replUtils`) is folded into the
already-formatted string. -/
structure TransformedResult (Ast MapT : Type) where
  code : String
  ast : Ast
  map : MapT
  envPresetResult : Option String
  deriving Repr, DecidableEq

/-- The `Return` record of `compile`, plus the `transformTime` field it also
carries (milliseconds, `none` on failure). -/
structure CompileOutcome where
  compiled : Option String
  transformTime : Option Nat
  ast : Option String
  compileErrorMessage : Option String
  envPresetDebugInfo : Option String
  sourceMap : Option String
  deriving Repr, DecidableEq

/-- The `targets` object built inside `compile`'s env-preset block:
`targets.browsers` is assigned only when the browsers string is truthy
(non-empty), as `split(",").map(trim).filter(nonEmpty)`; the electron/node
keys are assigned when their enable flags are set. -/
def mkTargets (envConfig : EnvConfig) : Targets :=
  let browsersList :=
    ((envConfig.browsers.splitOn ",").map String.trim).filter
      (fun value => value ≠ "")
  let t : Targets := {}
  let t := if envConfig.browsers ≠ "" then
      { t with browsers := some browsersList }
    else t
  let t := if envConfig.isElectronEnabled then
      { t with electron := some envConfig.electron }
    else t
  if envConfig.isNodeEnabled then { t with node := some envConfig.node } else t

/-- Whether `compile`'s env-preset block runs: `envConfig &&
envConfig.isEnvPresetEnabled`. -/
def envPresetRequested (config : CompileConfig) : Bool :=
  match config.envConfig with
  | some envConfig => envConfig.isEnvPresetEnabled
  | none => false

/-- The `config.presets.push(["env", options])` statement of `compile`: when
the env preset is requested, the preset list gains one `env` entry whose
options hold the built targets, an `onPresetBuild` callback exactly when
`config.debugEnvPreset`, and `useBuiltIns: !config.evaluate &&
config.useBuiltIns`.  Because the push mutates the caller's config object,
this function returns the updated config. -/
def pushEnvPreset (config : CompileConfig) : CompileConfig :=
  match config.envConfig with
  | some envConfig =>
      if envConfig.isEnvPresetEnabled then
        { config with presets := config.presets ++
            [PresetEntry.env
              { hasOnPresetBuild := config.debugEnvPreset
                targets := mkTargets envConfig
                useBuiltIns := !config.evaluate && config.useBuiltIns }] }
      else config
  | none => config

/-- The options object `compile` hands to `Babel.transform` (after the env
preset has been pushed onto `config.presets`). -/
def compileTransformOptions (config : CompileConfig) : TransformOptions :=
  { babelrc := false
    filename := "repl"
    presets := (pushEnvPreset config).presets
    sourceMap := config.sourceMap }

/-- The worker-side `compile(code, config)` function of `Compile.js`,
shallowly embedded.  Parameters model the external world:

* `transform` — `Babel.transform`; `.error e` models a thrown error `e`.
* `astStringify` — `JSON.stringify(transformed.ast, null, 2)`.
* `serializeMap` — `JSON.stringify(transformed.map)`; `.error` models a
  throw, which the inner `try` swallows (logged only).
* `elapsed` — the wall-clock milliseconds `Date.now() - start` measures.

The returned pair is the outcome together with the (possibly mutated)
config object, since `compile` pushes onto `config.presets` in place. -/
def compile {Ast MapT : Type}
    (transform : String → TransformOptions →
      Except JsError (TransformedResult Ast MapT))
    (astStringify : Ast → String)
    (serializeMap : MapT → Except JsError String)
    (elapsed : Nat)
    (code : String) (config : CompileConfig) :
    CompileOutcome × CompileConfig :=
  let pushedConfig := pushEnvPreset config
  let hasOnPresetBuild := envPresetRequested config && config.debugEnvPreset
  let outcome : CompileOutcome :=
    match transform code (compileTransformOptions config) with
    | .error error =>
        { compiled := none
          transformTime := none
          ast := none
          compileErrorMessage := some error.message
          envPresetDebugInfo := none
          sourceMap := none }
    | .ok transformed =>
        let envPresetDebugInfo :=
          if hasOnPresetBuild then transformed.envPresetResult else none
        let sourceMap :=
          if config.sourceMap then
            match serializeMap transformed.map with
            | .ok s => some s
            | .error _ => none
          else none
        { compiled := some transformed.code
          transformTime := some elapsed
          ast := some (astStringify transformed.ast)
          compileErrorMessage := none
          envPresetDebugInfo := envPresetDebugInfo
          sourceMap := sourceMap }
  (outcome, pushedConfig)

example :
    (@compile Unit Unit
      (fun _ _ => .error ⟨"Unexpected token"⟩)
      (fun _ => "") (fun _ => .ok "") 7 "let x ="
      { debugEnvPreset := false, envConfig := none, evaluate := false,
        presets := [.named "es2015"], sourceMap := false,
        useBuiltIns := false }).1 =
    { compiled := none, transformTime := none, ast := none,
      compileErrorMessage := some "Unexpected token",
      envPresetDebugInfo := none, sourceMap := none } := by decide

/-! ## The orchestrator (`Repl.js`) -/

/-- Per-plugin runtime status (`PluginState` in `types.js`), together with
the display label of its descriptor (`config.label`), which is what
`_presetsToArray` reads. -/
structure PluginState where
  isEnabled : Bool
  isLoading : Bool
  isLoaded : Bool
  didError : Bool
  label : String
  deriving Repr, DecidableEq

/-- A JS object mapping plugin/preset keys to `PluginState`, modelled as an
association list in `Object.keys` (insertion) order; keys are unique. -/
abbrev PluginStateMap := List (String × PluginState)

/-- The slice of the `Repl` component's `this.state` that the compile
orchestration reads and writes. -/
structure ReplState where
  builtIns : Bool
  code : String
  compiled : Option String
  ast : Option String
  transformTime : Option Nat
  compileErrorMessage : Option String
  debugEnvPreset : Bool
  envConfig : EnvConfig
  envPresetDebugInfo : Option String
  envPresetState : PluginState
  evalErrorMessage : Option String
  plugins : PluginStateMap
  presets : PluginStateMap
  runtimePolyfillState : PluginState
  sourceMap : Option String
  deriving Repr, DecidableEq

/-- `_presetsToArray(state)`: the keys of `state.presets` filtered to the
entries that are both enabled and loaded, mapped to their labels. -/
def presetsToArray (presets : PluginStateMap) : List String :=
  (presets.filter (fun kv => kv.2.isEnabled && kv.2.isLoaded)).map
    (fun kv => kv.2.label)

/-- `this.setState({compiled: null, ...})` in `_compile`'s empty-code branch:
the seven result fields reset to `null`, everything else untouched. -/
def replCompileEmptyReset (state : ReplState) : ReplState :=
  { state with
    compiled := none
    ast := none
    transformTime := none
    compileErrorMessage := none
    envPresetDebugInfo := none
    evalErrorMessage := none
    sourceMap := none }

/-- The `CompileConfig` object `_compile` builds and posts to the worker
(for non-empty code): presets from `_presetsToArray` plus `"babili"` when the
babili plugin is enabled and loaded, env config only while the env preset is
loaded, `evaluate`/`sourceMap` derived from the runtime-polyfill state. -/
def replWorkerConfig (state : ReplState) : CompileConfig :=
  let presetsArray := presetsToArray state.presets
  let presetsArray :=
    match state.plugins.lookup "babili-standalone" with
    | some babili =>
        if babili.isEnabled && babili.isLoaded then presetsArray ++ ["babili"]
        else presetsArray
    | none => presetsArray
  { debugEnvPreset := state.debugEnvPreset
    envConfig :=
      if state.envPresetState.isLoaded then some state.envConfig else none
    evaluate :=
      state.runtimePolyfillState.isEnabled &&
        state.runtimePolyfillState.isLoaded
    presets := presetsArray.map PresetEntry.named
    sourceMap := state.runtimePolyfillState.isEnabled
    useBuiltIns := state.builtIns }

/-- `_compile(code, ...)` up to its asynchronous boundary: for falsy (empty)
code it resets the result fields and dispatches nothing; otherwise the state
is unchanged synchronously and one worker compile request `(code, config)`
is dispatched. -/
def replCompile (state : ReplState) (code : String) :
    ReplState × Option (String × CompileConfig) :=
  if code = "" then (replCompileEmptyReset state, none)
  else (state, some (code, replWorkerConfig state))

/-- The `.then(result => this.setState(result, ...))` continuation of
`_compile`: a worker compile outcome is merged into state unconditionally,
whenever it arrives.  `Repl.js` attaches no sequence number or staleness
check to it. -/
def applyCompileResult (state : ReplState) (result : CompileOutcome) :
    ReplState :=
  { state with
    compiled := result.compiled
    ast := result.ast
    transformTime := result.transformTime
    compileErrorMessage := result.compileErrorMessage
    envPresetDebugInfo := result.envPresetDebugInfo
    sourceMap := result.sourceMap }

/-- Worker compile responses applied in arrival order. -/
def applyCompileResults (state : ReplState) (results : List CompileOutcome) :
    ReplState :=
  results.foldl applyCompileResult state

/-- The plugins loop of `_checkForUnloadedPlugins` (the unloaded-plugin
check): the keys for which a `_workerApi.loadPlugin` request is issued are
exactly those whose state is enabled, not loaded and not already loading. -/
def pluginLoadRequests (plugins : PluginStateMap) : List String :=
  (plugins.filter
    (fun kv => kv.2.isEnabled && !kv.2.isLoaded && !kv.2.isLoading)).map
    (fun kv => kv.1)

/-- The `plugins[name].isEnabled = isEnabled` branch of `_onSettingChange`:
a user toggle flips only the `isEnabled` flag of the named plugin. -/
def setPluginEnabled (plugins : PluginStateMap) (name : String)
    (isEnabled : Bool) : PluginStateMap :=
  plugins.map (fun kv =>
    if kv.1 = name then (kv.1, { kv.2 with isEnabled := isEnabled }) else kv)

/-! ## Debounced recompilation

`_compileToState = debounce(code => this._compile(code, ...), 500)` and
`_updateCode(code) = setState({code}); _compileToState(code)`.  Both code
edits (`CodeMirrorPanel.onChange`) and plugin-load completions
(`_checkForUnloadedPlugins`'s `.then` callbacks, which call
`_updateCode(this.state.code)`) go through `_updateCode`, hence through the
same debounced function. -/

/-- `DEBOUNCE_DELAY` in `Repl.js`. -/
def DEBOUNCE_DELAY : Nat := 500

/-- Trailing-edge debounce (the lodash default used by `Repl.js`): given the
timestamped calls to the debounced function in nondecreasing time order, a
call fires `delay` later with its own argument unless a further call arrives
strictly within `delay`, in which case it is superseded by that call. -/
def debounceDispatch (delay : Nat) :
    List (Nat × String) → List (Nat × String)
  | [] => []
  | [c] => [(c.1 + delay, c.2)]
  | c :: c' :: rest =>
      if c'.1 < c.1 + delay then debounceDispatch delay (c' :: rest)
      else (c.1 + delay, c.2) :: debounceDispatch delay (c' :: rest)

/-- A recompile trigger: a code edit carrying the new editor contents, or a
plugin-load completion (which recompiles `this.state.code`, carried here). -/
inductive ReplEvent where
  | codeEdit (code : String)
  | pluginLoadComplete (code : String)
  deriving Repr, DecidableEq

/-- Each trigger, of either kind, makes exactly one call to the debounced
`_compileToState`, with the code `_updateCode` received. -/
def compileToStateCalls (events : List (Nat × ReplEvent)) :
    List (Nat × String) :=
  events.map (fun te =>
    (te.1, match te.2 with
           | .codeEdit code => code
           | .pluginLoadComplete code => code))

/-- The compile dispatches the orchestrator issues for a trace of recompile
triggers: the debounced calls, coalesced with `DEBOUNCE_DELAY`. -/
def replCompileDispatches (events : List (Nat × ReplEvent)) :
    List (Nat × String) :=
  debounceDispatch DEBOUNCE_DELAY (compileToStateCalls events)

/-- A burst: consecutive calls all separated by strictly less than `delay`. -/
def isBurst (delay : Nat) : List (Nat × String) → Bool
  | [] => true
  | [_] => true
  | c :: c' :: rest => c'.1 < c.1 + delay && isBurst delay (c' :: rest)

/-- A concrete orchestrator state: the react preset and the babili plugin
are enabled but not loaded, the es2015 preset is enabled and loaded. -/
def sampleReplState : ReplState :=
  { builtIns := false
    code := "const x = 1"
    compiled := none
    ast := none
    transformTime := none
    compileErrorMessage := none
    debugEnvPreset := false
    envConfig :=
      { isEnvPresetEnabled := false, browsers := "", isElectronEnabled := false,
        electron := "", isNodeEnabled := false, node := "" }
    envPresetDebugInfo := none
    envPresetState :=
      { isEnabled := false, isLoading := false, isLoaded := false,
        didError := false, label := "env" }
    evalErrorMessage := none
    plugins :=
      [("babili-standalone",
        { isEnabled := true, isLoading := false, isLoaded := false,
          didError := false, label := "babili" })]
    presets :=
      [("babel-preset-es2015",
        { isEnabled := true, isLoading := false, isLoaded := true,
          didError := false, label := "es2015" }),
       ("babel-preset-react",
        { isEnabled := true, isLoading := false, isLoaded := false,
          didError := false, label := "react" })]
    runtimePolyfillState :=
      { isEnabled := false, isLoading := false, isLoaded := false,
        didError := false, label := "babel-polyfill" }
    sourceMap := none }

/-! ## Theorems -/

/-- C1: if the underlying transform call throws, `compile` returns the
all-null failure outcome carrying the thrown error's message (non-empty when
the error's message is non-empty), and — on any run whatsoever — the success
fields (`compiled`, `ast`) and the failure field (`compileErrorMessage`) are
never both populated. -/
theorem compile_transform_error_spec {Ast MapT : Type}
    (transform : String → TransformOptions →
      Except JsError (TransformedResult Ast MapT))
    (astStringify : Ast → String)
    (serializeMap : MapT → Except JsError String)
    (elapsed : Nat) (code : String) (config : CompileConfig) (e : JsError)
    (h : transform code (compileTransformOptions config) = .error e) :
    (compile transform astStringify serializeMap elapsed code config).1 =
      { compiled := none, transformTime := none, ast := none,
        compileErrorMessage := some e.message,
        envPresetDebugInfo := none, sourceMap := none } ∧
    (e.message ≠ "" →
      ∃ msg, (compile transform astStringify serializeMap elapsed code
          config).1.compileErrorMessage = some msg ∧ msg ≠ "") ∧
    (∀ {Ast2 MapT2 : Type}
      (transform2 : String → TransformOptions →
        Except JsError (TransformedResult Ast2 MapT2))
      (astStringify2 : Ast2 → String)
      (serializeMap2 : MapT2 → Except JsError String)
      (elapsed2 : Nat) (code2 : String) (config2 : CompileConfig),
      ¬((compile transform2 astStringify2 serializeMap2 elapsed2 code2
          config2).1.compiled ≠ none ∧
        (compile transform2 astStringify2 serializeMap2 elapsed2 code2
          config2).1.compileErrorMessage ≠ none)) := by
  refine ⟨by simp [compile, h], fun hne => ⟨e.message, by simp [compile, h], hne⟩,
    fun transform2 astStringify2 serializeMap2 elapsed2 code2 config2 => ?_⟩
  rcases h2 : transform2 code2 (compileTransformOptions config2) with e2 | tr2 <;>
    simp [compile, h2]

/-- Witness for C1 at a concrete failing transform. -/
theorem compile_transform_error_spec_witness :
    (@compile Unit Unit
      (fun _ _ => .error ⟨"Unexpected token (1:7)"⟩)
      (fun _ => "") (fun _ => .ok "") 3 "let x ="
      { debugEnvPreset := false, envConfig := none, evaluate := false,
        presets := [.named "es2015"], sourceMap := false,
        useBuiltIns := false }).1 =
      { compiled := none, transformTime := none, ast := none,
        compileErrorMessage := some "Unexpected token (1:7)",
        envPresetDebugInfo := none, sourceMap := none } :=
  (compile_transform_error_spec
    (fun _ _ => .error ⟨"Unexpected token (1:7)"⟩)
    (fun _ => "") (fun _ => .ok "") 3 "let x ="
    { debugEnvPreset := false, envConfig := none, evaluate := false,
      presets := [.named "es2015"], sourceMap := false, useBuiltIns := false }
    ⟨"Unexpected token (1:7)"⟩ rfl).1

/-- C2: two `compile` calls with the same code, the same config and the same
pure external collaborators differ only in the measured wall-clock time:
every outcome field except `transformTime` coincides (and the returned config
coincides as well). -/
theorem compile_idempotent_up_to_time {Ast MapT : Type}
    (transform : String → TransformOptions →
      Except JsError (TransformedResult Ast MapT))
    (astStringify : Ast → String)
    (serializeMap : MapT → Except JsError String)
    (elapsed₁ elapsed₂ : Nat) (code : String) (config : CompileConfig) :
    ((compile transform astStringify serializeMap elapsed₁ code
        config).1.compiled =
      (compile transform astStringify serializeMap elapsed₂ code
        config).1.compiled) ∧
    ((compile transform astStringify serializeMap elapsed₁ code
        config).1.ast =
      (compile transform astStringify serializeMap elapsed₂ code
        config).1.ast) ∧
    ((compile transform astStringify serializeMap elapsed₁ code
        config).1.compileErrorMessage =
      (compile transform astStringify serializeMap elapsed₂ code
        config).1.compileErrorMessage) ∧
    ((compile transform astStringify serializeMap elapsed₁ code
        config).1.envPresetDebugInfo =
      (compile transform astStringify serializeMap elapsed₂ code
        config).1.envPresetDebugInfo) ∧
    ((compile transform astStringify serializeMap elapsed₁ code
        config).1.sourceMap =
      (compile transform astStringify serializeMap elapsed₂ code
        config).1.sourceMap) ∧
    ((compile transform astStringify serializeMap elapsed₁ code config).2 =
      (compile transform astStringify serializeMap elapsed₂ code
        config).2) := by
  rcases h : transform code (compileTransformOptions config) with e | tr <;>
    simp [compile, h]

/-- `mkTargets` written as a single record of conditionals. -/
theorem mkTargets_eq (ec : EnvConfig) :
    mkTargets ec =
      { browsers :=
          if ec.browsers = "" then none
          else some (((ec.browsers.splitOn ",").map String.trim).filter
            (fun value => value ≠ ""))
        electron := if ec.isElectronEnabled then some ec.electron else none
        node := if ec.isNodeEnabled then some ec.node else none } := by
  unfold mkTargets
  split_ifs <;> simp_all

/-- C6: with the env preset enabled, the preset list handed to the transform
is the input list plus one `env` entry whose targets contain the browsers
key (split on commas, trimmed, empties dropped) only when the browsers
string is non-empty, the electron/node versions only when their flags are
set, and whose `useBuiltIns` is `config.useBuiltIns && !config.evaluate`;
with the env preset disabled or absent the config passes through
unmodified. -/
theorem compile_env_preset_building (config : CompileConfig) :
    (∀ ec, config.envConfig = some ec → ec.isEnvPresetEnabled = true →
      (pushEnvPreset config).presets = config.presets ++
        [PresetEntry.env
          { hasOnPresetBuild := config.debugEnvPreset
            targets :=
              { browsers :=
                  if ec.browsers = "" then none
                  else some (((ec.browsers.splitOn ",").map
                    String.trim).filter (fun value => value ≠ ""))
                electron :=
                  if ec.isElectronEnabled then some ec.electron else none
                node := if ec.isNodeEnabled then some ec.node else none }
            useBuiltIns := config.useBuiltIns && !config.evaluate }]) ∧
    (envPresetRequested config = false → pushEnvPreset config = config) := by
  constructor
  · intro ec hec henabled
    simp [pushEnvPreset, hec, henabled, mkTargets_eq, Bool.and_comm]
  · intro hreq
    unfold envPresetRequested at hreq
    rcases h : config.envConfig with _ | ec
    · simp [pushEnvPreset, h]
    · rw [h] at hreq
      simp only [] at hreq
      simp [pushEnvPreset, h, hreq]

/-- Witness for C6: a concrete config with the env preset enabled, browsers
`"ie 11, chrome 60"`, node enabled and electron disabled. -/
theorem compile_env_preset_building_witness :
    (pushEnvPreset
      { debugEnvPreset := true
        envConfig := some
          { isEnvPresetEnabled := true, browsers := "ie 11, chrome 60",
            isElectronEnabled := false, electron := "1.8",
            isNodeEnabled := true, node := "8.9" }
        evaluate := false, presets := [.named "es2015"], sourceMap := false
        useBuiltIns := true }).presets =
    [.named "es2015"] ++
      [PresetEntry.env
        { hasOnPresetBuild := true
          targets :=
            { browsers :=
                if ("ie 11, chrome 60" : String) = "" then none
                else some (((("ie 11, chrome 60" : String).splitOn ",").map
                  String.trim).filter (fun value => value ≠ ""))
              electron := if false = true then some "1.8" else none
              node := if true = true then some "8.9" else none }
          useBuiltIns := true && !false }] :=
  (compile_env_preset_building _).1
    { isEnvPresetEnabled := true, browsers := "ie 11, chrome 60",
      isElectronEnabled := false, electron := "1.8",
      isNodeEnabled := true, node := "8.9" } rfl rfl

/-- C7: on a successful transform with a source map requested, a throw while
serializing the source map leaves the outcome successful — compiled code,
AST and transform time populated, no compile error — with `sourceMap`
degraded to `null`. -/
theorem compile_sourceMap_failure_not_fatal {Ast MapT : Type}
    (transform : String → TransformOptions →
      Except JsError (TransformedResult Ast MapT))
    (astStringify : Ast → String)
    (serializeMap : MapT → Except JsError String)
    (elapsed : Nat) (code : String) (config : CompileConfig)
    (tr : TransformedResult Ast MapT) (e : JsError)
    (hok : transform code (compileTransformOptions config) = .ok tr)
    (hsm : config.sourceMap = true)
    (hser : serializeMap tr.map = .error e) :
    (compile transform astStringify serializeMap elapsed code
      config).1.compiled = some tr.code ∧
    (compile transform astStringify serializeMap elapsed code
      config).1.ast = some (astStringify tr.ast) ∧
    (compile transform astStringify serializeMap elapsed code
      config).1.transformTime = some elapsed ∧
    (compile transform astStringify serializeMap elapsed code
      config).1.compileErrorMessage = none ∧
    (compile transform astStringify serializeMap elapsed code
      config).1.sourceMap = none := by
  simp [compile, hok, hsm, hser]

/-- Witness for C7 at a concrete always-throwing map serializer. -/
theorem compile_sourceMap_failure_not_fatal_witness :
    (@compile Unit Unit
      (fun _ _ => .ok ⟨"var x = 1;", (), (), none⟩)
      (fun _ => "{}") (fun _ => .error ⟨"circular structure"⟩) 5 "const x = 1"
      { debugEnvPreset := false, envConfig := none, evaluate := true,
        presets := [.named "es2015"], sourceMap := true,
        useBuiltIns := false }).1.compiled = some "var x = 1;" ∧
    (@compile Unit Unit
      (fun _ _ => .ok ⟨"var x = 1;", (), (), none⟩)
      (fun _ => "{}") (fun _ => .error ⟨"circular structure"⟩) 5 "const x = 1"
      { debugEnvPreset := false, envConfig := none, evaluate := true,
        presets := [.named "es2015"], sourceMap := true,
        useBuiltIns := false }).1.compileErrorMessage = none ∧
    (@compile Unit Unit
      (fun _ _ => .ok ⟨"var x = 1;", (), (), none⟩)
      (fun _ => "{}") (fun _ => .error ⟨"circular structure"⟩) 5 "const x = 1"
      { debugEnvPreset := false, envConfig := none, evaluate := true,
        presets := [.named "es2015"], sourceMap := true,
        useBuiltIns := false }).1.sourceMap = none := by
  have h := @compile_sourceMap_failure_not_fatal Unit Unit
    (fun _ _ => .ok ⟨"var x = 1;", (), (), none⟩)
    (fun _ => "{}") (fun _ => .error ⟨"circular structure"⟩) 5 "const x = 1"
    { debugEnvPreset := false, envConfig := none, evaluate := true,
      presets := [.named "es2015"], sourceMap := true, useBuiltIns := false }
    ⟨"var x = 1;", (), (), none⟩ ⟨"circular structure"⟩ rfl rfl rfl
  exact ⟨h.1, h.2.2.2.1, h.2.2.2.2⟩

/-- C3 fails on the code: with the env preset enabled, `compile` mutates its
config argument — `config.presets.push(["env", options])` appends an entry,
so after the call the presets list no longer equals its value at call time. -/
theorem compile_mutates_config_counterexample :
    ((@compile Unit Unit
      (fun _ _ => .ok ⟨"var a;", (), (), none⟩)
      (fun _ => "{}") (fun _ => .ok "{}") 1 "var a"
      { debugEnvPreset := false
        envConfig := some
          { isEnvPresetEnabled := true, browsers := "", isElectronEnabled := false,
            electron := "", isNodeEnabled := false, node := "" }
        evaluate := false, presets := [], sourceMap := false
        useBuiltIns := false }).2).presets ≠ ([] : List PresetEntry) := by
  decide

/-- C3 amended: `compile` leaves its config argument unchanged exactly when
the env preset is absent or disabled; when the env preset is enabled it
mutates only `config.presets`, appending the single built `env` entry. -/
theorem compile_config_mutation_exact {Ast MapT : Type}
    (transform : String → TransformOptions →
      Except JsError (TransformedResult Ast MapT))
    (astStringify : Ast → String)
    (serializeMap : MapT → Except JsError String)
    (elapsed : Nat) (code : String) (config : CompileConfig) :
    (envPresetRequested config = false →
      (compile transform astStringify serializeMap elapsed code config).2 =
        config) ∧
    (∀ ec, config.envConfig = some ec → ec.isEnvPresetEnabled = true →
      (compile transform astStringify serializeMap elapsed code config).2 =
        { config with presets := config.presets ++
            [PresetEntry.env
              { hasOnPresetBuild := config.debugEnvPreset
                targets := mkTargets ec
                useBuiltIns := !config.evaluate && config.useBuiltIns }] }) := by
  have hsnd :
      (compile transform astStringify serializeMap elapsed code config).2 =
        pushEnvPreset config := by
    rcases h : transform code (compileTransformOptions config) with e | tr <;>
      simp [compile, h]
  constructor
  · intro hreq
    rw [hsnd]
    unfold envPresetRequested at hreq
    rcases h : config.envConfig with _ | ec
    · simp [pushEnvPreset, h]
    · rw [h] at hreq
      simp only [] at hreq
      simp [pushEnvPreset, h, hreq]
  · intro ec hec henabled
    rw [hsnd]
    simp [pushEnvPreset, hec, henabled]

/-- Witness for the amended C3: at a concrete env-enabled config, the
returned config is the input with exactly one `env` entry appended. -/
theorem compile_config_mutation_exact_witness :
    (@compile Unit Unit
      (fun _ _ => .ok ⟨"var a;", (), (), none⟩)
      (fun _ => "{}") (fun _ => .ok "{}") 1 "var a"
      { debugEnvPreset := false
        envConfig := some
          { isEnvPresetEnabled := true, browsers := "", isElectronEnabled := false,
            electron := "", isNodeEnabled := false, node := "" }
        evaluate := false, presets := [], sourceMap := false
        useBuiltIns := false }).2 =
    { debugEnvPreset := false
      envConfig := some
        { isEnvPresetEnabled := true, browsers := "", isElectronEnabled := false,
          electron := "", isNodeEnabled := false, node := "" }
      evaluate := false
      presets := [] ++
        [PresetEntry.env
          { hasOnPresetBuild := false
            targets := mkTargets
              { isEnvPresetEnabled := true, browsers := "", isElectronEnabled := false,
                electron := "", isNodeEnabled := false, node := "" }
            useBuiltIns := !false && false }]
      sourceMap := false
      useBuiltIns := false } :=
  (@compile_config_mutation_exact Unit Unit
    (fun _ _ => .ok ⟨"var a;", (), (), none⟩)
    (fun _ => "{}") (fun _ => .ok "{}") 1 "var a"
    { debugEnvPreset := false
      envConfig := some
        { isEnvPresetEnabled := true, browsers := "", isElectronEnabled := false,
          electron := "", isNodeEnabled := false, node := "" }
      evaluate := false, presets := [], sourceMap := false
      useBuiltIns := false }).2
    { isEnvPresetEnabled := true, browsers := "", isElectronEnabled := false,
      electron := "", isNodeEnabled := false, node := "" } rfl rfl

/-- C10: on empty (falsy) code, `_compile` dispatches no worker request and
resets `compiled`, `ast`, `transformTime`, `compileErrorMessage`,
`envPresetDebugInfo`, `evalErrorMessage` and `sourceMap` to `null`. -/
theorem replCompile_empty_code_resets (state : ReplState) :
    (replCompile state "").2 = none ∧
    (replCompile state "").1.compiled = none ∧
    (replCompile state "").1.ast = none ∧
    (replCompile state "").1.transformTime = none ∧
    (replCompile state "").1.compileErrorMessage = none ∧
    (replCompile state "").1.envPresetDebugInfo = none ∧
    (replCompile state "").1.evalErrorMessage = none ∧
    (replCompile state "").1.sourceMap = none := by
  simp [replCompile, replCompileEmptyReset]

/-- C9: the preset list of every dispatched compile request consists exactly
of the labels of the presets that are both enabled and loaded (plus
`"babili"` exactly when the babili plugin is enabled and loaded); an
enabled-but-unloaded preset contributes nothing, so a load failure never
blocks compilation with the loaded subset. -/
theorem replCompile_request_presets (state : ReplState) (code : String)
    (h : code ≠ "") :
    (replCompile state code).2 = some (code, replWorkerConfig state) ∧
    (replWorkerConfig state).presets =
      ((state.presets.filter (fun kv => kv.2.isEnabled && kv.2.isLoaded)).map
        (fun kv => PresetEntry.named kv.2.label)) ++
      (match state.plugins.lookup "babili-standalone" with
       | some babili =>
          if babili.isEnabled && babili.isLoaded then
            [PresetEntry.named "babili"]
          else []
       | none => []) ∧
    (∀ p ∈ (replWorkerConfig state).presets,
      (∃ kv ∈ state.presets, kv.2.isEnabled = true ∧ kv.2.isLoaded = true ∧
        p = PresetEntry.named kv.2.label) ∨
      (p = PresetEntry.named "babili" ∧
        ∃ babili, state.plugins.lookup "babili-standalone" = some babili ∧
          babili.isEnabled = true ∧ babili.isLoaded = true)) := by
  have hpres : (replWorkerConfig state).presets =
      ((state.presets.filter (fun kv => kv.2.isEnabled && kv.2.isLoaded)).map
        (fun kv => PresetEntry.named kv.2.label)) ++
      (match state.plugins.lookup "babili-standalone" with
       | some babili =>
          if babili.isEnabled && babili.isLoaded then
            [PresetEntry.named "babili"]
          else []
       | none => []) := by
    unfold replWorkerConfig presetsToArray
    rcases hb : state.plugins.lookup "babili-standalone" with _ | babili
    · simp [List.map_map, Function.comp]
    · by_cases hbe : babili.isEnabled && babili.isLoaded <;>
        simp [hbe, List.map_map, Function.comp]
  refine ⟨by simp [replCompile, h], hpres, ?_⟩
  intro p hp
  rw [hpres] at hp
  rcases List.mem_append.mp hp with hleft | hright
  · left
    rcases List.mem_map.mp hleft with ⟨kv, hkv, rfl⟩
    rcases List.mem_filter.mp hkv with ⟨hkvmem, hkvpred⟩
    simp only [Bool.and_eq_true] at hkvpred
    exact ⟨kv, hkvmem, hkvpred.1, hkvpred.2, rfl⟩
  · right
    rcases hb : state.plugins.lookup "babili-standalone" with _ | babili
    · rw [hb] at hright
      simp at hright
    · rw [hb] at hright
      simp only [] at hright
      by_cases hbe : (babili.isEnabled && babili.isLoaded) = true
      · rw [if_pos hbe] at hright
        simp only [Bool.and_eq_true] at hbe
        have hpeq := List.mem_singleton.mp hright
        subst hpeq
        exact ⟨rfl, babili, rfl, hbe.1, hbe.2⟩
      · rw [if_neg hbe] at hright
        cases hright

/-- Witness for C9: in `sampleReplState` the react preset and the babili
plugin are enabled but unloaded, so the dispatched request carries exactly
the loaded es2015 preset. -/
theorem replCompile_request_presets_witness :
    ∃ cfg, (replCompile sampleReplState "const x = 1").2 =
      some ("const x = 1", cfg) ∧
      cfg.presets = [PresetEntry.named "es2015"] := by
  have h := replCompile_request_presets sampleReplState "const x = 1"
    (by decide)
  exact ⟨replWorkerConfig sampleReplState, h.1, by decide⟩

/-- Membership in the issued load requests, unfolded. -/
theorem mem_pluginLoadRequests {plugins : PluginStateMap} {name : String} :
    name ∈ pluginLoadRequests plugins ↔
      ∃ st, (name, st) ∈ plugins ∧ st.isEnabled = true ∧
        st.isLoaded = false ∧ st.isLoading = false := by
  unfold pluginLoadRequests
  constructor
  · intro h
    rcases List.mem_map.mp h with ⟨kv, hkv, hfst⟩
    rcases List.mem_filter.mp hkv with ⟨hmem, hpred⟩
    simp only [Bool.and_eq_true, Bool.not_eq_true'] at hpred
    refine ⟨kv.2, ?_, hpred.1.1, hpred.1.2, hpred.2⟩
    subst hfst
    exact hmem
  · rintro ⟨st, hmem, he, hl, hg⟩
    refine List.mem_map.mpr ⟨(name, st), List.mem_filter.mpr ⟨hmem, ?_⟩, rfl⟩
    simp [he, hl, hg]

/-- In an association list with pairwise-distinct keys, a key determines its
value. -/
theorem assoc_nodup_value_eq {plugins : PluginStateMap}
    (hnd : (plugins.map Prod.fst).Nodup) {name : String} {s t : PluginState}
    (hs : (name, s) ∈ plugins) (ht : (name, t) ∈ plugins) : s = t := by
  induction plugins with
  | nil => cases hs
  | cons hd tl ih =>
    rw [List.map_cons, List.nodup_cons] at hnd
    rcases List.mem_cons.mp hs with hs1 | hs2
    · rcases List.mem_cons.mp ht with ht1 | ht2
      · have heq : (name, s) = (name, t) := by rw [hs1, ht1]
        injection heq
      · exfalso
        apply hnd.1
        rw [← hs1]
        exact List.mem_map.mpr ⟨(name, t), ht2, rfl⟩
    · rcases List.mem_cons.mp ht with ht1 | ht2
      · exfalso
        apply hnd.1
        rw [← ht1]
        exact List.mem_map.mpr ⟨(name, s), hs2, rfl⟩
      · exact ih hnd.2 hs2 ht2

/-- `_onSettingChange` preserves the key set of the plugins map. -/
theorem setPluginEnabled_keys (plugins : PluginStateMap) (name : String)
    (b : Bool) :
    (setPluginEnabled plugins name b).map Prod.fst = plugins.map Prod.fst := by
  induction plugins with
  | nil => rfl
  | cons hd tl ih =>
    by_cases h : hd.1 = name <;> simp [setPluginEnabled, h] <;>
      simpa [setPluginEnabled] using ih

/-- A toggle rewrites the named entry's `isEnabled` flag in place. -/
theorem mem_setPluginEnabled_self {plugins : PluginStateMap} {name : String}
    {st : PluginState} (b : Bool) (h : (name, st) ∈ plugins) :
    (name, { st with isEnabled := b }) ∈ setPluginEnabled plugins name b := by
  unfold setPluginEnabled
  refine List.mem_map.mpr ⟨(name, st), h, ?_⟩
  simp

/-- C8: the unloaded-plugin check issues no load request for a plugin that
is already loaded or whose load is in flight; in particular toggling a
loaded plugin off and back on re-triggers nothing. -/
theorem loaded_plugin_not_reloaded (plugins : PluginStateMap) (name : String)
    (st : PluginState) (hnd : (plugins.map Prod.fst).Nodup)
    (hmem : (name, st) ∈ plugins)
    (hstate : st.isLoaded = true ∨ st.isLoading = true) :
    name ∉ pluginLoadRequests plugins ∧
    name ∉ pluginLoadRequests
      (setPluginEnabled (setPluginEnabled plugins name false) name true) := by
  constructor
  · intro hc
    rcases mem_pluginLoadRequests.mp hc with ⟨st', hm', he', hl', hg'⟩
    have hst : st = st' := assoc_nodup_value_eq hnd hmem hm'
    rcases hstate with hx | hx <;> rw [hst] at hx
    · exact absurd hx (by simp [hl'])
    · exact absurd hx (by simp [hg'])
  · intro hc
    have hnd' : (((setPluginEnabled (setPluginEnabled plugins name false)
        name true).map Prod.fst)).Nodup := by
      rw [setPluginEnabled_keys, setPluginEnabled_keys]
      exact hnd
    have hmem' := mem_setPluginEnabled_self true
      (mem_setPluginEnabled_self false hmem)
    rcases mem_pluginLoadRequests.mp hc with ⟨st', hm', he', hl', hg'⟩
    have hst : ({ { st with isEnabled := false } with isEnabled := true }
        : PluginState) = st' := assoc_nodup_value_eq hnd' hmem' hm'
    rcases hstate with hx | hx
    · rw [← hst] at hl'
      simp at hl'
      exact absurd hx (by simp [hl'])
    · rw [← hst] at hg'
      simp at hg'
      exact absurd hx (by simp [hg'])

/-- Witness for C8 at a concrete loaded plugin. -/
theorem loaded_plugin_not_reloaded_witness :
    "babili-standalone" ∉ pluginLoadRequests
      [("babili-standalone",
        { isEnabled := true, isLoading := false, isLoaded := true,
          didError := false, label := "babili" })] ∧
    "babili-standalone" ∉ pluginLoadRequests
      (setPluginEnabled (setPluginEnabled
        [("babili-standalone",
          { isEnabled := true, isLoading := false, isLoaded := true,
            didError := false, label := "babili" })]
        "babili-standalone" false) "babili-standalone" true) :=
  loaded_plugin_not_reloaded
    [("babili-standalone",
      { isEnabled := true, isLoading := false, isLoaded := true,
        didError := false, label := "babili" })]
    "babili-standalone"
    { isEnabled := true, isLoading := false, isLoaded := true,
      didError := false, label := "babili" }
    (by decide) (by decide) (Or.inl rfl)

/-- C5 fails on the code: `_compile` sends the request with no sequence
number and its `.then` applies whatever response arrives, unconditionally.
Here the worker answers a newer request first (`var b = 2;`) and an older,
slower request afterwards (`var a = 1;`): the stale result is not discarded
— it overwrites the newer one. -/
theorem stale_compile_result_applied_counterexample :
    (applyCompileResults sampleReplState
      [{ compiled := some "var b = 2;", transformTime := some 4,
         ast := some "ast-b", compileErrorMessage := none,
         envPresetDebugInfo := none, sourceMap := none },
       { compiled := some "var a = 1;", transformTime := some 90,
         ast := some "ast-a", compileErrorMessage := none,
         envPresetDebugInfo := none, sourceMap := none }]).compiled =
      some "var a = 1;" ∧
    (some "var a = 1;" : Option String) ≠ some "var b = 2;" := by
  decide

/-- C5 amended: compile responses carry no sequence numbers and are merged
into state strictly in arrival order — the last response to arrive
determines every result field, whether or not it answers the latest
request. -/
theorem compile_responses_last_arrival_wins (state : ReplState)
    (results : List CompileOutcome) (r : CompileOutcome)
    (h : results.getLast? = some r) :
    (applyCompileResults state results).compiled = r.compiled ∧
    (applyCompileResults state results).ast = r.ast ∧
    (applyCompileResults state results).transformTime = r.transformTime ∧
    (applyCompileResults state results).compileErrorMessage =
      r.compileErrorMessage ∧
    (applyCompileResults state results).envPresetDebugInfo =
      r.envPresetDebugInfo ∧
    (applyCompileResults state results).sourceMap = r.sourceMap := by
  induction results generalizing state with
  | nil => cases h
  | cons a tl ih =>
    cases tl with
    | nil =>
      simp only [List.getLast?_singleton, Option.some.injEq] at h
      subst h
      simp [applyCompileResults, applyCompileResult]
    | cons b tl2 =>
      rw [List.getLast?_cons_cons] at h
      have hfold : applyCompileResults state (a :: b :: tl2) =
          applyCompileResults (applyCompileResult state a) (b :: tl2) := rfl
      rw [hfold]
      exact ih (applyCompileResult state a) h

/-- Witness for the amended C5 at the concrete two-response arrival. -/
theorem compile_responses_last_arrival_wins_witness :
    (applyCompileResults sampleReplState
      [{ compiled := some "var b = 2;", transformTime := some 4,
         ast := some "ast-b", compileErrorMessage := none,
         envPresetDebugInfo := none, sourceMap := none },
       { compiled := some "var a = 1;", transformTime := some 90,
         ast := some "ast-a", compileErrorMessage := none,
         envPresetDebugInfo := none, sourceMap := none }]).compiled =
      some "var a = 1;" := by
  have h := compile_responses_last_arrival_wins sampleReplState
    [{ compiled := some "var b = 2;", transformTime := some 4,
       ast := some "ast-b", compileErrorMessage := none,
       envPresetDebugInfo := none, sourceMap := none },
     { compiled := some "var a = 1;", transformTime := some 90,
       ast := some "ast-a", compileErrorMessage := none,
       envPresetDebugInfo := none, sourceMap := none }]
    { compiled := some "var a = 1;", transformTime := some 90,
      ast := some "ast-a", compileErrorMessage := none,
      envPresetDebugInfo := none, sourceMap := none } rfl
  exact h.1

/-- C4 fails on the code: a plugin-load completion recompiles through
`_updateCode`, i.e. through the debounced `_compileToState`, so it is
coalesced with pending edit-triggered calls, not dispatched immediately.
An edit at t=0 and a plugin-load completion at t=100 produce exactly one
dispatch, at t=600 — there is no immediate dispatch at t=100. -/
theorem plugin_load_recompile_debounced_counterexample :
    replCompileDispatches
      [(0, .codeEdit "const a = 1"),
       (100, .pluginLoadComplete "const a = 1")] =
      [(600, "const a = 1")] ∧
    (100, "const a = 1") ∉ replCompileDispatches
      [(0, .codeEdit "const a = 1"),
       (100, .pluginLoadComplete "const a = 1")] := by
  decide

/-- A single burst of calls to a trailing-edge debounced function yields
exactly one firing, `delay` after the last call, with its argument. -/
theorem debounceDispatch_burst (delay : Nat) (calls : List (Nat × String))
    (c : Nat × String) (h1 : isBurst delay calls = true)
    (h2 : calls.getLast? = some c) :
    debounceDispatch delay calls = [(c.1 + delay, c.2)] := by
  induction calls with
  | nil => cases h2
  | cons a tl ih =>
    cases tl with
    | nil =>
      simp only [List.getLast?_singleton, Option.some.injEq] at h2
      subst h2
      rfl
    | cons b tl2 =>
      rw [List.getLast?_cons_cons] at h2
      unfold isBurst at h1
      simp only [Bool.and_eq_true, decide_eq_true_eq] at h1
      have hstep : debounceDispatch delay (a :: b :: tl2) =
          if b.1 < a.1 + delay then debounceDispatch delay (b :: tl2)
          else (a.1 + delay, a.2) :: debounceDispatch delay (b :: tl2) := rfl
      rw [hstep, if_pos h1.1]
      exact ih h1.2 h2

/-- C4 amended: both code-edit-triggered and plugin-load-triggered
recompiles go through the same debounced `_compileToState`, so any burst of
recompile triggers — edits and plugin-load completions alike, each within
`DEBOUNCE_DELAY` of the previous — yields exactly one compile dispatch,
`DEBOUNCE_DELAY` after the last trigger, with that trigger's code value. -/
theorem recompile_triggers_coalesced (events : List (Nat × ReplEvent))
    (c : Nat × String)
    (h1 : isBurst DEBOUNCE_DELAY (compileToStateCalls events) = true)
    (h2 : (compileToStateCalls events).getLast? = some c) :
    replCompileDispatches events = [(c.1 + DEBOUNCE_DELAY, c.2)] :=
  debounceDispatch_burst DEBOUNCE_DELAY (compileToStateCalls events) c h1 h2

/-- Witness for the amended C4: five rapid edits inside the debounce window
yield exactly one dispatch, with the final code value. -/
theorem recompile_triggers_coalesced_witness :
    replCompileDispatches
      [(0, .codeEdit "c"), (50, .codeEdit "co"), (120, .codeEdit "con"),
       (200, .codeEdit "cons"), (450, .codeEdit "const")] =
      [(450 + DEBOUNCE_DELAY, "const")] :=
  recompile_triggers_coalesced
    [(0, .codeEdit "c"), (50, .codeEdit "co"), (120, .codeEdit "con"),
     (200, .codeEdit "cons"), (450, .codeEdit "const")]
    (450, "const") (by decide) (by decide)

